import Mathlib

/-!
# A shallow embedding of `src/data_processor.py` (flight-analysis)

This file embeds the record-cleaning and aggregation engine of the
repository's `DataProcessor` class (`src/data_processor.py`) and proves, or
refutes, the frozen specification claims about it.

Modelling conventions:

* A pandas float that may be NaN is `F := Option ℚ`; `none` is NaN.
  Rationals stand in for IEEE doubles (the claims are about exact policies,
  never about rounding of binary floats).
* A raw record is a mapping with optional keys; `Option` fields model key
  presence.  A pandas DataFrame column exists iff some raw record carries the
  key, so the cleaned frame carries explicit column-presence flags.
* Python exceptions are `Option`: `none` is a raised exception.
* `pd.to_numeric(errors='coerce')` on strings is modelled on plain decimal
  literals; `pd.to_datetime(errors='coerce')` is modelled on ISO
  `YYYY-MM-DD` strings; `pd.to_datetime(format='%H:%M')` on two-digit
  `HH:MM` strings.  The claims only exercise these shapes.
* `DataFrame.sort_values(ascending=False)` with the default
  `kind='quicksort'` gives no tie-order contract: numpy's introsort is
  unstable beyond its small insertion-sort regime, so the order of equal
  keys is implementation-defined.  The embedding must pick some concrete
  order and uses the stable descending sort (the behaviour of pandas
  `nargsort`'s reverse/argsort/reverse construction when the underlying
  argsort happens to be stable).  No theorem in this file depends on the
  order of sort ties.
* `Series.std()` (sample, ddof=1) and `Series.corr` produce square roots of
  rationals; their values are kept symbolically (`StdVal`, `Corr`) so that
  "is NaN" and "is the number 0" stay decidable.
-/

/-- A raw scalar found under the `price` key: a JSON number or a string. -/
inductive RawVal where
  | num (q : ℚ)
  | str (s : String)
deriving DecidableEq, Repr

/-- One raw flight record (`raw_data['flights'][i]`).  A `none` field models
an absent key (or a null value, which pandas treats the same way for the
analyses embedded here). -/
structure RawRecord where
  price : Option RawVal := none
  origin : Option String := none
  destination : Option String := none
  date : Option String := none
  time : Option String := none
  airline : Option String := none
  direct : Option Bool := none
  demand_score : Option ℚ := none
deriving DecidableEq, Repr

/-- Value of a decimal digit character. -/
def digitVal (c : Char) : ℕ := c.toNat - 48

/-- Digits to a natural number, most significant first. -/
def digitsToNat (cs : List Char) : ℕ :=
  cs.foldl (fun a c => a * 10 + digitVal c) 0

/-- Model of `pd.to_numeric(errors='coerce')` on a string, restricted to plain decimal
literals: optional sign, an integer part and/or a fractional part.  Anything
else coerces to NaN (`none`). -/
def parseNum (s : String) : Option ℚ :=
  let cs := s.toList
  let sign : ℚ := if cs.head? = some '-' then -1 else 1
  let cs := if cs.head? = some '-' ∨ cs.head? = some '+' then cs.tail else cs
  let intPart := cs.takeWhile (·.isDigit)
  let rest := cs.dropWhile (·.isDigit)
  match rest with
  | [] =>
      if intPart = [] then none
      else some (sign * digitsToNat intPart)
  | '.' :: frac =>
      if frac.all (·.isDigit) ∧ (intPart ≠ [] ∨ frac ≠ []) then
        some (sign * ((digitsToNat intPart : ℚ) +
          (digitsToNat frac : ℚ) / ((10 : ℚ) ^ frac.length)))
      else none
  | _ => none

/-- Model of `pd.to_numeric(errors='coerce')` on the raw `price` value: numbers pass
through, strings are parsed, an absent value stays NaN. -/
def toNumeric : Option RawVal → Option ℚ
  | none => none
  | some (.num q) => some q
  | some (.str s) => parseNum s

/-- A calendar date, as produced by `pd.to_datetime`. -/
structure Date where
  year : ℕ
  month : ℕ
  day : ℕ
deriving DecidableEq, Repr

/-- Gregorian leap year. -/
def isLeap (y : ℕ) : Bool := y % 4 = 0 ∧ (y % 100 ≠ 0 ∨ y % 400 = 0)

/-- Days in a month of a given year. -/
def daysInMonth (y m : ℕ) : ℕ :=
  if m = 2 then (if isLeap y then 29 else 28)
  else if m = 4 ∨ m = 6 ∨ m = 9 ∨ m = 11 then 30
  else 31

/-- Weekday with Monday = 0 .. Sunday = 6 (the `pandas` `.weekday`
convention), by Zeller's congruence. -/
def Date.weekday (d : Date) : ℕ :=
  let m := if d.month ≤ 2 then d.month + 12 else d.month
  let y := if d.month ≤ 2 then d.year - 1 else d.year
  let k := y % 100
  let j := y / 100
  let h := (d.day + (13 * (m + 1)) / 5 + k + k / 4 + j / 4 + 5 * j) % 7
  (h + 5) % 7

/-- The pandas `day_name()` labels. -/
def dayName (w : ℕ) : String :=
  match w with
  | 0 => "Monday" | 1 => "Tuesday" | 2 => "Wednesday" | 3 => "Thursday"
  | 4 => "Friday" | 5 => "Saturday" | _ => "Sunday"

/-- The pandas `month_name()` labels. -/
def monthName (m : ℕ) : String :=
  match m with
  | 1 => "January" | 2 => "February" | 3 => "March" | 4 => "April"
  | 5 => "May" | 6 => "June" | 7 => "July" | 8 => "August"
  | 9 => "September" | 10 => "October" | 11 => "November" | _ => "December"

/-- Model of `pd.to_datetime(errors='coerce')` restricted to ISO `YYYY-MM-DD` strings;
a malformed or impossible date coerces to NaT (`none`). -/
def parseDate (s : String) : Option Date :=
  match s.toList with
  | [y1, y2, y3, y4, '-', m1, m2, '-', d1, d2] =>
      if ([y1, y2, y3, y4, m1, m2, d1, d2].all (·.isDigit)) then
        let y := digitsToNat [y1, y2, y3, y4]
        let m := digitsToNat [m1, m2]
        let d := digitsToNat [d1, d2]
        if 1 ≤ m ∧ m ≤ 12 ∧ 1 ≤ d ∧ d ≤ daysInMonth y m then
          some ⟨y, m, d⟩
        else none
      else none
  | _ => none

/-- Left zero-padding of a numeral. -/
def padNum (width n : ℕ) : String :=
  let s := toString n
  String.mk (List.replicate (width - s.length) '0') ++ s

/-- Model of `strftime('%Y-%m-%d')`. -/
def fmtDate (d : Date) : String :=
  padNum 4 d.year ++ "-" ++ padNum 2 d.month ++ "-" ++ padNum 2 d.day

/-- Model of `str.upper()` on an airport code; spelled through the character list so
that concrete instances evaluate by kernel reduction. -/
def upperStr (s : String) : String := String.mk (s.toList.map Char.toUpper)

/-- Chronological (lexicographic) order on dates. -/
def dateLeB (a b : Date) : Bool :=
  decide (a.year < b.year ∨ (a.year = b.year ∧
    (a.month < b.month ∨ (a.month = b.month ∧ a.day ≤ b.day))))

/-- One row of the cleaned DataFrame produced by `_clean_data`: the surviving
raw fields (origin/destination uppercased) plus the derived columns. -/
structure CleanRec where
  price : ℚ
  origin : Option String
  destination : Option String
  date : Date
  time : Option String
  airline : Option String
  direct : Option Bool
  demand_score : Option ℚ
  day_of_week : String
  month : String
  is_weekend : Bool
  route : Option String
deriving DecidableEq, Repr

/-- Per-row part of `_clean_data`: price coercion and the `> 0` filter, date
parsing, uppercasing, and the derived columns.  `none` is a dropped row. -/
def normalizeRec (r : RawRecord) : Option CleanRec :=
  match toNumeric r.price with
  | none => none
  | some p =>
      if p ≤ 0 then none
      else
        match r.date.bind parseDate with
        | none => none
        | some d =>
            let o := r.origin.map upperStr
            let dst := r.destination.map upperStr
            some
              { price := p
                origin := o
                destination := dst
                date := d
                time := r.time
                airline := r.airline
                direct := r.direct
                demand_score := r.demand_score
                day_of_week := dayName d.weekday
                month := monthName d.month
                is_weekend := decide (5 ≤ d.weekday)
                route :=
                  match o, dst with
                  | some a, some b => some (a ++ "-" ++ b)
                  | _, _ => none }

/-- Model of `DataFrame.drop_duplicates`: keep the first occurrence of each
field-wise identical record. -/
def dropDupAux (seen : List RawRecord) : List RawRecord → List RawRecord
  | [] => []
  | r :: rs =>
      if r ∈ seen then dropDupAux seen rs
      else r :: dropDupAux (r :: seen) rs

/-- Model of `DataFrame.drop_duplicates` from an empty seen-set. -/
def drop_duplicates (l : List RawRecord) : List RawRecord := dropDupAux [] l

/-- The cleaned DataFrame: its rows plus the column-presence facts that
survive from the raw frame (a pandas column exists iff some raw record had
the key, even when every surviving row holds NaN there). -/
structure Frame where
  rows : List CleanRec
  hasTime : Bool
  hasAirline : Bool
  hasDirect : Bool
  hasDemand : Bool
deriving Repr

/-- Model of `_clean_data`: deduplicate, coerce and filter `price`, uppercase the
airport codes, parse and filter `date`, and derive the calendar and route
columns.  The column-presence flags reflect the raw frame. -/
def clean_data (flights : List RawRecord) : Frame :=
  let dd := drop_duplicates flights
  { rows := dd.filterMap normalizeRec
    hasTime := dd.any (fun r => r.time.isSome)
    hasAirline := dd.any (fun r => r.airline.isSome)
    hasDirect := dd.any (fun r => r.direct.isSome)
    hasDemand := dd.any (fun r => r.demand_score.isSome) }

/-! ## Float and aggregation helpers -/

/-- A pandas float value: `none` is NaN. -/
abbrev F := Option ℚ

/-- NaN-propagating subtraction. -/
def fSub : F → F → F
  | some a, some b => some (a - b)
  | _, _ => none

/-- NaN-propagating division (a zero divisor yields a non-rational IEEE
value, also modelled as `none`; every use site guards the divisor). -/
def fDiv : F → F → F
  | some a, some b => if b = 0 then none else some (a / b)
  | _, _ => none

/-- NaN-propagating multiplication. -/
def fMul : F → F → F
  | some a, some b => some (a * b)
  | _, _ => none

/-- The Python comparison `x > 0` on a float: False on NaN. -/
def fGtZero : F → Bool
  | none => false
  | some v => decide (0 < v)

/-- Model of `Series.mean()`: NaN on an empty series. -/
def meanQ (l : List ℚ) : F :=
  if l = [] then none else some (l.sum / l.length)

/-- Model of `Series.min()`: NaN on an empty series. -/
def minQ (l : List ℚ) : F :=
  match l with
  | [] => none
  | x :: xs => some (xs.foldl min x)

/-- Model of `Series.max()`: NaN on an empty series. -/
def maxQ (l : List ℚ) : F :=
  match l with
  | [] => none
  | x :: xs => some (xs.foldl max x)

/-- Stable insertion sort by a (total) boolean order. -/
def sortLe {α : Type} (le : α → α → Bool) (l : List α) : List α :=
  List.insertionSort (fun a b => le a b = true) l

/-- Ascending numeric sort. -/
def sortQ : List ℚ → List ℚ := sortLe (fun a b => decide (a ≤ b))

/-- Model of `Series.median()`: midpoint interpolation; NaN on an empty series. -/
def medianQ (l : List ℚ) : F :=
  let s := sortQ l
  let n := s.length
  if n = 0 then none
  else if n % 2 = 1 then some (s.getD (n / 2) 0)
  else some ((s.getD (n / 2 - 1) 0 + s.getD (n / 2) 0) / 2)

/-- First-occurrence deduplication with an accumulator of seen keys. -/
def dedupSeen {α : Type} [DecidableEq α] (seen : List α) : List α → List α
  | [] => []
  | x :: xs => if x ∈ seen then dedupSeen seen xs else x :: dedupSeen (x :: seen) xs

/-- First-occurrence deduplication of a key list (pandas group keys). -/
def dedupKeys {α : Type} [DecidableEq α] (l : List α) : List α := dedupSeen [] l

/-- String order used by pandas when sorting group keys (code-point
lexicographic). -/
def strLe (a b : String) : Bool := decide (a ≤ b)

/-- The distinct keys of a groupby, in ascending order (`groupby` sorts its
keys). -/
def groupKeys {α : Type} [DecidableEq α] (le : α → α → Bool) (l : List α) :
    List α :=
  sortLe le (dedupKeys l)

/-- Model of `Series.std()` / `Series.corr` values: NaN, or the square root of a
nonnegative rational, kept symbolically. -/
inductive StdVal where
  | nan
  | sqrtOf (v : ℚ)
deriving DecidableEq, Repr

/-- Does a `StdVal` denote the real number 0?  (`sqrtOf v` denotes `√v`.) -/
def StdVal.denotesZero : StdVal → Prop
  | .nan => False
  | .sqrtOf v => v = 0

/-- Model of `Series.std()` with the pandas default `ddof = 1`: NaN on fewer than two
samples, else the square root of the sample variance. -/
def sampleStd (l : List ℚ) : StdVal :=
  if l.length ≤ 1 then .nan
  else
    let n : ℚ := l.length
    let m : ℚ := l.sum / n
    .sqrtOf ((l.map (fun x => (x - m) ^ 2)).sum / (n - 1))

/-! ## `_generate_summary` -/

/-- The `price_range` object of the summary. -/
structure PriceRange where
  min : ℚ
  max : ℚ
  avg : ℚ
  median : ℚ
deriving DecidableEq, Repr

/-- The summary keys that `_get_empty_processed_data` omits (everything but
`total_flights`). -/
structure SummaryDetails where
  unique_routes : ℕ
  date_range_start : String
  date_range_end : String
  price_range : PriceRange
  airlines : ℕ
deriving DecidableEq, Repr

/-- The `summary` mapping.  On the degenerate path only `total_flights`
exists (`details := none`). -/
structure Summary where
  total_flights : ℕ
  details : Option SummaryDetails
deriving DecidableEq, Repr

/-- Value-of-`F` for a series known to be nonempty (the unreachable empty
case defaults to 0). -/
def fVal (x : F) : ℚ := x.getD 0

/-- Model of `_generate_summary`.  On an empty frame `df['date'].min()` is NaT and
`NaT.strftime` raises `ValueError`, hence `none`. -/
def generate_summary (f : Frame) : Option Summary :=
  match f.rows with
  | [] => none
  | _ =>
      let prices := f.rows.map (·.price)
      let dates := f.rows.map (·.date)
      some
        { total_flights := f.rows.length
          details := some
            { unique_routes := (dedupKeys (f.rows.filterMap (·.route))).length
              date_range_start := fmtDate ((sortLe dateLeB dates).headD ⟨0, 1, 1⟩)
              date_range_end := fmtDate ((sortLe dateLeB dates).getLastD ⟨0, 1, 1⟩)
              price_range :=
                { min := fVal (minQ prices)
                  max := fVal (maxQ prices)
                  avg := fVal (meanQ prices)
                  median := fVal (medianQ prices) }
              airlines :=
                if f.hasAirline then
                  (dedupKeys (f.rows.filterMap (·.airline))).length
                else 0 } }

/-! ## `_analyze_prices` -/

/-- The `statistics` object of the price analysis. -/
structure PriceStats where
  mean : F
  median : F
  std : StdVal
  min : F
  max : F
deriving DecidableEq, Repr

/-- The `weekend_premium` object.  `premium_percentage` is an optional KEY
(outer `Option`) whose value is a possibly-NaN float (inner `F`). -/
structure WeekendPremium where
  weekend_avg : F
  weekday_avg : F
  premium_percentage : Option F
deriving DecidableEq, Repr

/-- The `price_analysis` mapping. -/
structure PriceAnalysis where
  statistics : PriceStats
  by_day_of_week : List (String × ℚ)
  by_month : List (String × ℚ)
  weekend_premium : WeekendPremium
deriving DecidableEq, Repr

/-- Model of `df.groupby(key)['price'].mean().to_dict()`: ascending distinct keys with
the group mean (groups are nonempty, so the mean is a rational). -/
def groupPriceMeans (key : CleanRec → String) (rows : List CleanRec) :
    List (String × ℚ) :=
  (groupKeys strLe (rows.map key)).map fun k =>
    let g := (rows.filter (fun r => key r = k)).map (·.price)
    (k, g.sum / g.length)

/-- Model of `_analyze_prices`.  Never raises; empty subsets surface as NaN means, and
`premium_percentage` is added only when `weekday_avg > 0` (false on NaN). -/
def analyze_prices (f : Frame) : PriceAnalysis :=
  let prices := f.rows.map (·.price)
  let weekendAvg := meanQ ((f.rows.filter (·.is_weekend)).map (·.price))
  let weekdayAvg := meanQ ((f.rows.filter (fun r => ¬ r.is_weekend)).map (·.price))
  { statistics :=
      { mean := meanQ prices
        median := medianQ prices
        std := sampleStd prices
        min := minQ prices
        max := maxQ prices }
    by_day_of_week := groupPriceMeans (·.day_of_week) f.rows
    by_month := groupPriceMeans (·.month) f.rows
    weekend_premium :=
      { weekend_avg := weekendAvg
        weekday_avg := weekdayAvg
        premium_percentage :=
          if fGtZero weekdayAvg then
            some (fMul (fDiv (fSub weekendAvg weekdayAvg) weekdayAvg) (some 100))
          else none } }

/-! ## `_analyze_routes` -/

/-- Model of `np.round` ties-to-even on a rational. -/
def roundHalfEven (x : ℚ) : ℤ :=
  let fl := ⌊x⌋
  let fr := x - fl
  if fr < 1 / 2 then fl
  else if 1 / 2 < fr then fl + 1
  else if fl % 2 = 0 then fl else fl + 1

/-- Model of `.round(2)`. -/
def round2 (x : ℚ) : ℚ := (roundHalfEven (x * 100) : ℚ) / 100

/-- One row of the per-route aggregate (`route_stats`).  `direct_ratio` is an
optional COLUMN (outer `Option`, present iff the raw frame had `direct`)
holding a possibly-NaN mean (inner `F`). -/
structure RouteStat where
  route : String
  flight_count : ℕ
  avg_price : ℚ
  min_price : ℚ
  max_price : ℚ
  direct_ratio : Option F
deriving DecidableEq, Repr

/-- The ratio reported by `('direct', 'mean')`: NaN when the group holds no
non-null `direct` value. -/
def directMean (bs : List Bool) : F :=
  match bs with
  | [] => none
  | _ => some (round2 ((bs.filter id).length / (bs.length : ℚ)))

/-- The per-route aggregate row for one route key. -/
def mkRouteStat (f : Frame) (k : String) : RouteStat :=
  let g := f.rows.filter (fun r => r.route = some k)
  let ps := g.map (·.price)
  { route := k
    flight_count := g.length
    avg_price := round2 (ps.sum / ps.length)
    min_price := round2 (fVal (minQ ps))
    max_price := round2 (fVal (maxQ ps))
    direct_ratio :=
      if f.hasDirect then some (directMean (g.filterMap (·.direct))) else none }

/-- One step of a stable descending-by-`flight_count` insertion: a new
element goes after every element with a count at least as large. -/
def insertRS (x : RouteStat) : List RouteStat → List RouteStat
  | [] => [x]
  | y :: ys =>
      if y.flight_count < x.flight_count then x :: y :: ys
      else y :: insertRS x ys

/-- Model of `sort_values('flight_count', ascending=False)` for the route
rows.  The program's numpy quicksort guarantees only the descending order
of `flight_count`; the order of tied counts is implementation-defined, and
this embedding fixes it as the stable (groupby key ascending) resolution —
see the header note.  No theorem in this file relies on the tie order. -/
def sortByCountDesc (l : List RouteStat) : List RouteStat :=
  l.foldl (fun acc x => insertRS x acc) []

/-- The sorted `route_stats` frame: groupby keys ascending (rows whose
`route` is NaN are dropped by `groupby`), aggregated, then stably sorted by
descending `flight_count`. -/
def routeRanking (f : Frame) : List RouteStat :=
  sortByCountDesc ((groupKeys strLe (f.rows.filterMap (·.route))).map (mkRouteStat f))

/-- Model of `Series.idxmax` then `.loc`: the first element (in current frame order)
attaining the maximal measure. -/
def idxmaxBy {α : Type} (m : α → ℚ) (best : α) : List α → α
  | [] => best
  | x :: xs => idxmaxBy m (if m best < m x then x else best) xs

/-- Model of `Series.idxmin` then `.loc`: the first element attaining the minimal
measure. -/
def idxminBy {α : Type} (m : α → ℚ) (best : α) : List α → α
  | [] => best
  | x :: xs => idxminBy m (if m x < m best then x else best) xs

/-- The `route_analysis` mapping. -/
structure RouteAnalysis where
  popular_routes : List RouteStat
  total_routes : ℕ
  most_expensive_route : RouteStat
  cheapest_route : RouteStat
deriving DecidableEq, Repr

/-- Model of `_analyze_routes`.  With no route group at all, `idxmax` on the empty
`avg_price` series raises `ValueError` (`none`). -/
def analyze_routes (f : Frame) : Option RouteAnalysis :=
  match routeRanking f with
  | [] => none
  | s :: rest =>
      some
        { popular_routes := (s :: rest).take 10
          total_routes := (s :: rest).length
          most_expensive_route := idxmaxBy (·.avg_price) s rest
          cheapest_route := idxminBy (·.avg_price) s rest }

/-! ## `_analyze_time_patterns` -/

/-- The `time_analysis` mapping. -/
structure TimeAnalysis where
  daily_flight_counts : List (Date × ℕ)
  weekly_pattern : List (String × ℕ)
  busiest_day : String
  quietest_day : String
  avg_flights_per_day : ℚ
deriving DecidableEq, Repr

/-- Counts grouped by a key, keys ascending. -/
def groupCounts {α : Type} [DecidableEq α] (le : α → α → Bool)
    (l : List α) : List (α × ℕ) :=
  (groupKeys le l).map fun k => (k, (l.filter (fun x => x = k)).length)

/-- First key (in list order) with the maximal count (`idxmax`). -/
def firstMaxCount {α : Type} (c : α × ℕ) (l : List (α × ℕ)) : α :=
  (idxmaxBy (fun p => (p.2 : ℚ)) c l).1

/-- First key (in list order) with the minimal count (`idxmin`). -/
def firstMinCount {α : Type} (c : α × ℕ) (l : List (α × ℕ)) : α :=
  (idxminBy (fun p => (p.2 : ℚ)) c l).1

/-- Model of `_analyze_time_patterns`.  On an empty frame `idxmax` raises
(`none`). -/
def analyze_time_patterns (f : Frame) : Option TimeAnalysis :=
  match groupCounts dateLeB (f.rows.map (·.date)) with
  | [] => none
  | c :: cs =>
      some
        { daily_flight_counts := c :: cs
          weekly_pattern := groupCounts strLe (f.rows.map (·.day_of_week))
          busiest_day := fmtDate (firstMaxCount c cs)
          quietest_day := fmtDate (firstMinCount c cs)
          avg_flights_per_day :=
            ((c :: cs).map (fun p => (p.2 : ℚ))).sum / (c :: cs).length }

/-! ## `_analyze_demand` -/

/-- A Pearson correlation value as produced by `Series.corr`:
`num x` is an exactly represented value (the integer default 0 of
`_analyze_demand`), `nan` is float NaN, and `ratio cov vx vy` denotes the
real number `cov / √(vx·vy)` with `vx, vy > 0`. -/
inductive Corr where
  | num (x : ℚ)
  | nan
  | ratio (cov vx vy : ℚ)
deriving DecidableEq, Repr

/-- Does a `Corr` denote the real number 0? -/
def Corr.denotesZero : Corr → Prop
  | .num x => x = 0
  | .nan => False
  | .ratio cov _ _ => cov = 0

/-- Model of `Series.corr` (Pearson) over the complete pairs: NaN on fewer than two
pairs or when either series has zero variance; otherwise
`cov / √(vx·vy)` (the common `1/(n-1)` normalisation cancels). -/
def pearson (ps : List (ℚ × ℚ)) : Corr :=
  if ps.length < 2 then .nan
  else
    let n : ℚ := ps.length
    let mx := (ps.map Prod.fst).sum / n
    let my := (ps.map Prod.snd).sum / n
    let vx := (ps.map (fun p => (p.1 - mx) ^ 2)).sum
    let vy := (ps.map (fun p => (p.2 - my) ^ 2)).sum
    let cov := (ps.map (fun p => (p.1 - mx) * (p.2 - my))).sum
    if vx = 0 ∨ vy = 0 then .nan else .ratio cov vx vy

/-- The `peak_times` object (an empty mapping, `none`, when the frame has no
`time` column). -/
structure PeakTimes where
  busiest_hour : ℕ
  quietest_hour : ℕ
  hourly_distribution : List (ℕ × ℕ)
deriving DecidableEq, Repr

/-- The `demand_analysis` mapping. -/
structure DemandAnalysis where
  high_demand_routes : List (String × F)
  price_demand_correlation : Corr
  peak_times : Option PeakTimes
deriving DecidableEq, Repr

/-- Model of `pd.to_datetime(format='%H:%M', errors='coerce').dt.hour` on a raw time
string, restricted to two-digit `HH:MM` values. -/
def parseHour (s : String) : Option ℕ :=
  match s.toList with
  | [h1, h2, ':', m1, m2] =>
      if ([h1, h2, m1, m2].all (·.isDigit)) then
        let h := digitsToNat [h1, h2]
        let m := digitsToNat [m1, m2]
        if h ≤ 23 ∧ m ≤ 59 then some h else none
      else none
  | _ => none

/-- Model of `route_demand`: ascending route keys with the group mean of the non-null
demand scores (NaN when a group has none). -/
def routeDemand (f : Frame) : List (String × F) :=
  (groupKeys strLe (f.rows.filterMap (·.route))).map fun k =>
    (k, meanQ ((f.rows.filter (fun r => r.route = some k)).filterMap (·.demand_score)))

/-- One step of the stable descending sort of a float series
(`sort_values(ascending=False)`); NaN never goes before a value here because
the NaN entries are appended separately. -/
def insertFDesc (x : String × F) : List (String × F) → List (String × F)
  | [] => [x]
  | y :: ys =>
      match x.2, y.2 with
      | some a, some b => if b < a then x :: y :: ys else y :: insertFDesc x ys
      | _, _ => y :: insertFDesc x ys

/-- Model of `route_demand.sort_values(ascending=False)`: defined values
descending, NaN entries last (`na_position='last'`).  The program's order
of tied values is implementation-defined (numpy quicksort); the embedding
fixes the stable resolution.  No theorem in this file relies on it. -/
def sortFDesc (l : List (String × F)) : List (String × F) :=
  (l.filter (fun p => p.2.isSome)).foldl (fun acc x => insertFDesc x acc) []
    ++ l.filter (fun p => p.2.isNone)

/-- Model of `Series.quantile(0.8)` with linear interpolation, skipping NaN; NaN
(`none`) when no value remains. -/
def quantile80 (l : List ℚ) : Option ℚ :=
  match sortQ l with
  | [] => none
  | x :: xs =>
      let n := (x :: xs).length
      let h : ℚ := ((n : ℚ) - 1) * (4 / 5)
      let i := (⌊h⌋).toNat
      let lo := (x :: xs).getD i 0
      let hi := (x :: xs).getD (i + 1) lo
      some (lo + (h - (i : ℚ)) * (hi - lo))

/-- The complete (price, demand_score) pairs that `Series.corr` uses (price
is always present on a cleaned row). -/
def demandPairs (f : Frame) : List (ℚ × ℚ) :=
  f.rows.filterMap (fun r => r.demand_score.map (fun d => (r.price, d)))

/-- The reported `price_demand_correlation`: the integer default 0 when the
`demand_score` column is absent, else the (possibly NaN) Pearson value. -/
def demandCorr (f : Frame) : Corr :=
  if f.hasDemand then pearson (demandPairs f) else .num 0

/-- The reported `high_demand_routes`: the default `[]` without a
`demand_score` column, else the routes at or above the 0.8 quantile of the
route-mean demand, in descending-value order. -/
def highDemandRoutes (f : Frame) : List (String × F) :=
  if f.hasDemand then
    (sortFDesc (routeDemand f)).filter fun p =>
      match p.2, quantile80 ((routeDemand f).filterMap (·.2)) with
      | some v, some t => decide (t ≤ v)
      | _, _ => false
  else []

/-- Model of `_analyze_demand`.  The defaults (`[]`, the number 0, `{}`) survive when
the corresponding column is absent; with a `time` column but no parsable
time, `idxmax` on the empty hourly counts raises (`none`). -/
def analyze_demand (f : Frame) : Option DemandAnalysis :=
  if f.hasTime then
    match groupCounts (fun a b => decide (a ≤ b)) (f.rows.filterMap (fun r => r.time.bind parseHour)) with
    | [] => none
    | c :: cs =>
        some
          { high_demand_routes := highDemandRoutes f
            price_demand_correlation := demandCorr f
            peak_times := some
              { busiest_hour := firstMaxCount c cs
                quietest_hour := firstMinCount c cs
                hourly_distribution := c :: cs } }
  else
    some
      { high_demand_routes := highDemandRoutes f
        price_demand_correlation := demandCorr f
        peak_times := none }

/-! ## `_analyze_airlines` -/

/-- One row of the per-airline aggregate.  The `direct` column is referenced
unconditionally by the aggregation spec, so `direct_ratio` is always a
(possibly NaN) float here. -/
structure AirlineStat where
  airline : String
  flight_count : ℕ
  avg_price : ℚ
  min_price : ℚ
  max_price : ℚ
  direct_ratio : F
deriving DecidableEq, Repr

/-- The `airline_analysis` mapping: either the explicit
`{'message': 'No airline data available'}` marker or the rankings. -/
inductive AirlineAnalysis where
  | noData
  | stats (airline_rankings : List AirlineStat) (most_flights : String)
      (cheapest_airline : String) (most_expensive_airline : String)
deriving DecidableEq, Repr

/-- The per-airline aggregate row for one airline key. -/
def mkAirlineStat (f : Frame) (k : String) : AirlineStat :=
  let g := f.rows.filter (fun r => r.airline = some k)
  let ps := g.map (·.price)
  { airline := k
    flight_count := g.length
    avg_price := round2 (ps.sum / ps.length)
    min_price := round2 (fVal (minQ ps))
    max_price := round2 (fVal (maxQ ps))
    direct_ratio := directMean (g.filterMap (·.direct)) }

/-- Stable descending-by-`flight_count` insertion step for airline rows. -/
def insertAS (x : AirlineStat) : List AirlineStat → List AirlineStat
  | [] => [x]
  | y :: ys =>
      if y.flight_count < x.flight_count then x :: y :: ys
      else y :: insertAS x ys

/-- Model of `sort_values('flight_count', ascending=False)` for the airline
rows; as with the route sort, the program's tie order is
implementation-defined and the embedding fixes the stable resolution.  No
theorem in this file relies on the tie order. -/
def sortASByCountDesc (l : List AirlineStat) : List AirlineStat :=
  l.foldl (fun acc x => insertAS x acc) []

/-- The sorted `airline_stats` frame. -/
def airlineRanking (f : Frame) : List AirlineStat :=
  sortASByCountDesc
    ((groupKeys strLe (f.rows.filterMap (·.airline))).map (mkAirlineStat f))

/-- Model of `_analyze_airlines`.  Without an `airline` column the explicit no-data
marker is returned.  WITH an `airline` column but WITHOUT a `direct` column,
`groupby('airline').agg({'price': ..., 'direct': 'mean'})` raises `KeyError`
(the aggregation dict names a missing column) — modelled as `none`; with an
all-null airline column, `iloc[0]` on the empty frame raises (`none`). -/
def analyze_airlines (f : Frame) : Option AirlineAnalysis :=
  if ¬ f.hasAirline then some .noData
  else if ¬ f.hasDirect then none
  else
    match airlineRanking f with
    | [] => none
    | a :: rest =>
        some (.stats (a :: rest) a.airline
          (idxminBy (·.avg_price) a rest).airline
          (idxmaxBy (·.avg_price) a rest).airline)

/-! ## `process_data` -/

/-- The assembled `analysis` mapping.  On the degenerate path each
sub-analysis is the empty mapping, modelled by `none`. -/
structure Analysis where
  summary : Summary
  price_analysis : Option PriceAnalysis
  route_analysis : Option RouteAnalysis
  time_analysis : Option TimeAnalysis
  demand_analysis : Option DemandAnalysis
  airline_analysis : Option AirlineAnalysis
deriving Repr

/-- The raw input of `process_data`.  `search_params` and `market_data` are
opaque pass-through mappings; `flights = []` also models a missing or null
`flights` key (all falsy to `raw_data.get('flights')`). -/
structure RawData where
  flights : List RawRecord := []
  search_params : List (String × String) := []
  market_data : List (String × String) := []
deriving Repr

/-- The result of `process_data` (the wall-clock `processing_timestamp` is
out of the embedded core's scope). -/
structure ProcessedData where
  search_params : List (String × String)
  flights_data : List CleanRec
  analysis : Analysis
  market_data : List (String × String)
  total_flights : ℕ
deriving Repr

/-- Model of `_get_empty_processed_data`. -/
def empty_processed_data : ProcessedData :=
  { search_params := []
    flights_data := []
    analysis :=
      { summary := { total_flights := 0, details := none }
        price_analysis := none
        route_analysis := none
        time_analysis := none
        demand_analysis := none
        airline_analysis := none }
    market_data := []
    total_flights := 0 }

/-- Model of `process_data`: the degenerate path on a falsy `flights`, otherwise
clean, run the six analyses (any raised exception propagates: `none`), and
assemble. -/
def process_data (raw : RawData) : Option ProcessedData :=
  if raw.flights = [] then some empty_processed_data
  else
    match generate_summary (clean_data raw.flights),
        analyze_routes (clean_data raw.flights),
        analyze_time_patterns (clean_data raw.flights),
        analyze_demand (clean_data raw.flights),
        analyze_airlines (clean_data raw.flights) with
    | some s, some ra, some ta, some da, some aa =>
        some
          { search_params := raw.search_params
            flights_data := (clean_data raw.flights).rows
            analysis :=
              { summary := s
                price_analysis := some (analyze_prices (clean_data raw.flights))
                route_analysis := some ra
                time_analysis := some ta
                demand_analysis := some da
                airline_analysis := some aa }
            market_data := raw.market_data
            total_flights := (clean_data raw.flights).rows.length }
    | _, _, _, _, _ => none

/-! ## Fixtures -/

/-- Fixture: a Monday (weekday) flight record; 2024-01-01 is a Monday. -/
def recMonday : RawRecord :=
  { price := some (.num 150), origin := some "SYD", destination := some "MEL",
    date := some "2024-01-01" }

/-- Fixture: a Saturday flight with an airline but no `direct` flag;
2024-01-06 is a Saturday. -/
def recSatAirline : RawRecord :=
  { price := some (.num 100), origin := some "SYD", destination := some "MEL",
    date := some "2024-01-06", airline := some "Qantas" }

/-- Fixture: a record that cleaning excludes (non-positive price). -/
def recBadPrice : RawRecord :=
  { price := some (.num (-5)), date := some "2024-01-01" }

/-- Fixture: a single record carrying a demand score. -/
def recDemand : RawRecord :=
  { price := some (.num 100), origin := some "SYD", destination := some "MEL",
    date := some "2024-01-06", demand_score := some (1 / 2) }

/-! ## Shared lemmas -/

/-- The summary's `total_flights` is the cleaned row count. -/
theorem generate_summary_total (f : Frame) (s : Summary)
    (h : generate_summary f = some s) : s.total_flights = f.rows.length := by
  unfold generate_summary at h
  split at h
  · exact absurd h (by simp)
  · cases h; rfl

/-! ## C1 -/

/-- Fixture: a raw set whose single record is excluded during cleaning. -/
def rawAllExcluded : RawData := { flights := [recBadPrice] }

/-- C1, counterexample.  The claim says an input whose records are ALL
excluded during cleaning also reaches the degenerate result without error;
in fact `process_data` only short-circuits on a falsy `flights` and
otherwise runs `_generate_summary`, whose `NaT.strftime` raises on the empty
cleaned frame. -/
theorem C1_counterexample :
    rawAllExcluded.flights ≠ [] ∧
    (clean_data rawAllExcluded.flights).rows = [] ∧
    process_data rawAllExcluded = none := by
  refine ⟨by decide, by decide, ?_⟩
  rfl

/-- C1 (amended).  `process_data` returns the well-typed degenerate
result (zero `total_flights`, all five other sub-analyses empty mappings)
exactly when the raw `flights` set itself is empty; when the set is
non-empty but every record is excluded during cleaning, the run raises
(models the `ValueError` from `NaT.strftime` in `_generate_summary`). -/
theorem C1_degenerate_path (raw : RawData) :
    (raw.flights = [] →
      process_data raw = some empty_processed_data ∧
      empty_processed_data.analysis.summary.total_flights = 0 ∧
      empty_processed_data.analysis.price_analysis = none ∧
      empty_processed_data.analysis.route_analysis = none ∧
      empty_processed_data.analysis.time_analysis = none ∧
      empty_processed_data.analysis.demand_analysis = none ∧
      empty_processed_data.analysis.airline_analysis = none) ∧
    (raw.flights ≠ [] → (clean_data raw.flights).rows = [] →
      process_data raw = none) := by
  constructor
  · intro h
    refine ⟨?_, rfl, rfl, rfl, rfl, rfl, rfl⟩
    simp [process_data, h]
  · intro h hrows
    have hs : generate_summary (clean_data raw.flights) = none := by
      unfold generate_summary
      rw [hrows]
    unfold process_data
    rw [if_neg h]
    show (match generate_summary (clean_data raw.flights),
        analyze_routes (clean_data raw.flights),
        analyze_time_patterns (clean_data raw.flights),
        analyze_demand (clean_data raw.flights),
        analyze_airlines (clean_data raw.flights) with
      | some s, some ra, some ta, some da, some aa => some _
      | _, _, _, _, _ => none) = none
    rw [hs]

/-- C1, witness. -/
theorem C1_degenerate_path_witness :
    process_data { flights := [] } = some empty_processed_data ∧
    process_data rawAllExcluded = none := by
  refine ⟨((C1_degenerate_path { flights := [] }).1 rfl).1, ?_⟩
  exact (C1_degenerate_path rawAllExcluded).2 (by decide) (by decide)

/-! ## C10 -/

/-- C10.  On every result `process_data` actually returns — degenerate or
not — the top-level `total_flights`, the nested `analysis.summary
.total_flights`, and the length of `flights_data` agree. -/
theorem C10_counts_consistent (raw : RawData) (r : ProcessedData)
    (h : process_data raw = some r) :
    r.total_flights = r.analysis.summary.total_flights ∧
    r.total_flights = r.flights_data.length := by
  unfold process_data at h
  split at h
  · cases h
    exact ⟨rfl, rfl⟩
  · split at h
    · rename_i s ra ta da aa hs hra hta hda haa
      cases h
      exact ⟨(generate_summary_total _ _ hs).symm, rfl⟩
    · exact absurd h (by simp)

/-- C10, witness. -/
theorem C10_counts_consistent_witness :
    empty_processed_data.total_flights
        = empty_processed_data.analysis.summary.total_flights ∧
    empty_processed_data.total_flights
        = empty_processed_data.flights_data.length :=
  C10_counts_consistent { flights := [] } empty_processed_data rfl

/-! ## C2 -/

/-- The claim's characterisation of a counted record: its price coerces to a
number strictly greater than 0 and its date is parsable. -/
def claimValidRec (r : RawRecord) : Bool :=
  ((toNumeric r.price).elim false fun p => decide (0 < p)) &&
    (r.date.bind parseDate).isSome

/-- A raw record survives `_clean_data`'s row filters iff it satisfies the
claim's characterisation. -/
theorem normalizeRec_isSome (r : RawRecord) :
    (normalizeRec r).isSome = claimValidRec r := by
  unfold normalizeRec claimValidRec
  cases h : toNumeric r.price with
  | none => simp
  | some p =>
      by_cases hp : p ≤ 0
      · simp [hp, Option.elim, not_lt.mpr hp]
      · cases hd : r.date.bind parseDate <;>
          simp [hd, hp, Option.elim, lt_of_not_le hp]

/-- The cleaned row count equals the count of deduplicated records passing
the claim's filter. -/
theorem clean_length (l : List RawRecord) :
    (l.filterMap normalizeRec).length = (l.filter claimValidRec).length := by
  induction l with
  | nil => rfl
  | cons r rs ih =>
      rw [List.filterMap_cons, List.filter_cons]
      cases h : normalizeRec r with
      | none =>
          have hv : claimValidRec r = false := by
            rw [← normalizeRec_isSome, h]; rfl
          simp [hv, ih]
      | some c =>
          have hv : claimValidRec r = true := by
            rw [← normalizeRec_isSome, h]; rfl
          simp [hv, ih]

/-- C2.  On every successfully returned result for a non-empty input
with at least one normalized record, `summary.total_flights` is the number
of normalized records, i.e. the number of deduplicated raw records whose
price coerces to a number `> 0` and whose date parses. -/
theorem C2_total_flights (raw : RawData) (r : ProcessedData)
    (h : process_data raw = some r) (hne : raw.flights ≠ [])
    (_hsome : (clean_data raw.flights).rows ≠ []) :
    r.analysis.summary.total_flights = (clean_data raw.flights).rows.length ∧
    (clean_data raw.flights).rows.length
      = ((drop_duplicates raw.flights).filter claimValidRec).length := by
  constructor
  · unfold process_data at h
    rw [if_neg hne] at h
    split at h
    · rename_i s ra ta da aa hs hra hta hda haa
      cases h
      exact generate_summary_total _ _ hs
    · exact absurd h (by simp)
  · exact clean_length (drop_duplicates raw.flights)

/-- Fixture for C2: a duplicate collapses, one record is excluded, a string
price and lowercase codes are coerced; two records survive. -/
def rawC2 : RawData :=
  { flights := [recMonday, recMonday, recBadPrice,
      { price := some (.str "180"), origin := some "syd",
        destination := some "mel", date := some "2024-01-02" }] }

set_option maxRecDepth 4000 in
/-- The result `process_data` returns on the C2 fixture. -/
def rC2 : ProcessedData := (process_data rawC2).get (by with_unfolding_all decide)

set_option maxRecDepth 4000 in
/-- C2, witness. -/
theorem C2_total_flights_witness :
    rC2.analysis.summary.total_flights = (clean_data rawC2.flights).rows.length ∧
    (clean_data rawC2.flights).rows.length
      = ((drop_duplicates rawC2.flights).filter claimValidRec).length :=
  C2_total_flights rawC2 rC2 (Option.some_get _).symm (by decide)
    (by with_unfolding_all decide)

/-! ## C4 -/

/-- Fixture: a one-record (weekday-only) raw set. -/
def rawMonday : RawData := { flights := [recMonday] }

/-- C4, counterexample.  The claim says an empty weekend subset yields
`weekend_avg = 0`; in fact `Series.mean()` of the empty subset is NaN
(`float('nan')`), which `float(...)` passes through, so the reported value
is NaN, not the number 0. -/
theorem C4_counterexample :
    (clean_data rawMonday.flights).rows ≠ [] ∧
    (clean_data rawMonday.flights).rows.filter (·.is_weekend) = [] ∧
    (analyze_prices (clean_data rawMonday.flights)).weekend_premium.weekend_avg
      = none ∧
    (analyze_prices (clean_data rawMonday.flights)).weekend_premium.weekend_avg
      ≠ some 0 := by
  refine ⟨?_, ?_, ?_, ?_⟩ <;> with_unfolding_all decide

/-- C4 (amended).  For every non-empty normalized record set with an
empty weekend (resp. weekday) subset, the price analysis reports that
subset's average as NaN — a missing numeric value, not the number 0 — and
does not crash (the analysis is total). -/
theorem C4_empty_subset_avg (f : Frame) (_hne : f.rows ≠ []) :
    (f.rows.filter (·.is_weekend) = [] →
      (analyze_prices f).weekend_premium.weekend_avg = none) ∧
    (f.rows.filter (fun r => ¬ r.is_weekend) = [] →
      (analyze_prices f).weekend_premium.weekday_avg = none) := by
  constructor <;> intro h
  · rw [show (analyze_prices f).weekend_premium.weekend_avg
        = meanQ ((f.rows.filter (·.is_weekend)).map (·.price)) from rfl, h]
    rfl
  · rw [show (analyze_prices f).weekend_premium.weekday_avg
        = meanQ ((f.rows.filter (fun r => ¬ r.is_weekend)).map (·.price)) from rfl, h]
    rfl

/-- C4, witness. -/
theorem C4_empty_subset_avg_witness :
    (analyze_prices (clean_data rawMonday.flights)).weekend_premium.weekend_avg
      = none :=
  (C4_empty_subset_avg (clean_data rawMonday.flights)
    (by with_unfolding_all decide)).1 (by with_unfolding_all decide)

/-! ## C6 -/

/-- C6, counterexample.  The claim says the std of a single-record set is
the number 0; in fact `Series.std()` uses the sample convention `ddof = 1`,
so one sample gives `0 / 0` and the reported value is NaN. -/
theorem C6_counterexample :
    (clean_data rawMonday.flights).rows.length = 1 ∧
    (analyze_prices (clean_data rawMonday.flights)).statistics.std
      = StdVal.nan ∧
    ¬ (analyze_prices (clean_data rawMonday.flights)).statistics.std.denotesZero := by
  refine ⟨by with_unfolding_all decide, by with_unfolding_all decide, ?_⟩
  intro hz
  rw [show (analyze_prices (clean_data rawMonday.flights)).statistics.std
      = StdVal.nan by with_unfolding_all decide] at hz
  exact hz

/-- C6 (amended).  For every single-record normalized set the price
statistics report `std` as NaN (pandas sample standard deviation with
`ddof = 1` is undefined on one sample), not the number 0. -/
theorem C6_single_record_std (f : Frame) (h : f.rows.length = 1) :
    (analyze_prices f).statistics.std = StdVal.nan := by
  unfold analyze_prices sampleStd
  simp [h]

/-- C6, witness. -/
theorem C6_single_record_std_witness :
    (analyze_prices (clean_data rawMonday.flights)).statistics.std
      = StdVal.nan :=
  C6_single_record_std (clean_data rawMonday.flights) (by with_unfolding_all decide)

/-! ## C5 -/

/-- The claim's zero-variance condition on the price coordinate of the
correlation pairs. -/
def priceVarZero (ps : List (ℚ × ℚ)) : Prop :=
  (ps.map (fun p => (p.1 - (ps.map Prod.fst).sum / (ps.length : ℚ)) ^ 2)).sum = 0

/-- The embedded `Series.corr` is NaN on fewer than two pairs or zero price variance. -/
theorem pearson_nan (ps : List (ℚ × ℚ))
    (h : ps.length < 2 ∨ priceVarZero ps) : pearson ps = Corr.nan := by
  unfold pearson
  by_cases hl : ps.length < 2
  · rw [if_pos hl]
  · rw [if_neg hl]
    rcases h with h | h
    · exact absurd h hl
    · unfold priceVarZero at h
      show (if (ps.map (fun p =>
            (p.1 - (ps.map Prod.fst).sum / (ps.length : ℚ)) ^ 2)).sum = 0 ∨
            (ps.map (fun p =>
            (p.2 - (ps.map Prod.snd).sum / (ps.length : ℚ)) ^ 2)).sum = 0
          then Corr.nan else _) = Corr.nan
      rw [if_pos (Or.inl h)]

/-- Fixture: a one-record raw set carrying a demand score. -/
def rawDemand : RawData := { flights := [recDemand] }

/-- C5, counterexample.  The claim says an undefined correlation (here:
a single complete pair) is reported as the number 0; in fact
`float(Series.corr(...))` is NaN there, and the initial 0 is overwritten
whenever the `demand_score` column exists. -/
theorem C5_counterexample :
    (clean_data rawDemand.flights).hasDemand = true ∧
    (demandPairs (clean_data rawDemand.flights)).length < 2 ∧
    (analyze_demand (clean_data rawDemand.flights)).map
      (·.price_demand_correlation) = some Corr.nan ∧
    ¬ Corr.denotesZero Corr.nan := by
  refine ⟨?_, ?_, ?_, fun hz => hz⟩ <;> with_unfolding_all decide

/-- C5 (amended).  Whenever the `demand_score` column is present but
there are fewer than two complete (price, demand_score) pairs, or the price
coordinate has zero variance, any returned demand analysis reports
`price_demand_correlation` as NaN — not the number 0.  (The number 0 is
reported only when the `demand_score` column is absent altogether.) -/
theorem C5_undefined_corr_nan (f : Frame) (da : DemandAnalysis)
    (hd : f.hasDemand = true)
    (hc : (demandPairs f).length < 2 ∨ priceVarZero (demandPairs f))
    (h : analyze_demand f = some da) :
    da.price_demand_correlation = Corr.nan := by
  have hcorr : demandCorr f = Corr.nan := by
    unfold demandCorr
    rw [hd, if_pos rfl]
    exact pearson_nan _ hc
  unfold analyze_demand at h
  by_cases ht : f.hasTime
  · rw [if_pos ht] at h
    split at h
    · exact absurd h (by simp)
    · cases h
      exact hcorr
  · rw [if_neg ht] at h
    cases h
    exact hcorr

/-- The demand analysis returned on the C5 fixture. -/
def daDemand : DemandAnalysis :=
  (analyze_demand (clean_data rawDemand.flights)).get (by with_unfolding_all decide)

/-- C5, witness. -/
theorem C5_undefined_corr_nan_witness :
    daDemand.price_demand_correlation = Corr.nan :=
  C5_undefined_corr_nan (clean_data rawDemand.flights) daDemand
    (by with_unfolding_all decide)
    (Or.inl (by with_unfolding_all decide))
    (Option.some_get _).symm

/-! ## C7 -/

/-- Presence and value of `premium_percentage` as a function of the two
averages. -/
theorem premium_aux (we wd : F) :
    ((if fGtZero wd then some (fMul (fDiv (fSub we wd) wd) (some 100))
        else none).isSome
      ↔ ∃ v, wd = some v ∧ 0 < v) ∧
    ∀ p, (if fGtZero wd then some (fMul (fDiv (fSub we wd) wd) (some 100))
        else none) = some p →
      p = fMul (fDiv (fSub we wd) wd) (some 100) := by
  cases wd with
  | none => simp [fGtZero]
  | some v =>
      by_cases hv : 0 < v
      · simp [fGtZero, hv]
      · simp [fGtZero, hv]

/-- C7.  For every non-empty normalized record set the key
`premium_percentage` is present iff `weekday_avg` is a number strictly
greater than 0 (so it is absent when the weekday subset is empty, whose
average is NaN), and when present it carries the float value
`(weekend_avg - weekday_avg) / weekday_avg * 100` (NaN-propagating). -/
theorem C7_premium_presence (f : Frame) (_hne : f.rows ≠ []) :
    ((analyze_prices f).weekend_premium.premium_percentage.isSome ↔
      ∃ v, (analyze_prices f).weekend_premium.weekday_avg = some v ∧ 0 < v) ∧
    ∀ p, (analyze_prices f).weekend_premium.premium_percentage = some p →
      p = fMul (fDiv (fSub (analyze_prices f).weekend_premium.weekend_avg
            (analyze_prices f).weekend_premium.weekday_avg)
          (analyze_prices f).weekend_premium.weekday_avg) (some 100) := by
  have h := premium_aux (meanQ ((f.rows.filter (·.is_weekend)).map (·.price)))
    (meanQ ((f.rows.filter (fun r => ¬ r.is_weekend)).map (·.price)))
  exact h

/-- C7, witness. -/
theorem C7_premium_presence_witness :
    ((analyze_prices (clean_data rawC2.flights)).weekend_premium.premium_percentage.isSome ↔
      ∃ v, (analyze_prices (clean_data rawC2.flights)).weekend_premium.weekday_avg
          = some v ∧ 0 < v) ∧
    ∀ p, (analyze_prices (clean_data rawC2.flights)).weekend_premium.premium_percentage
        = some p →
      p = fMul (fDiv (fSub
            (analyze_prices (clean_data rawC2.flights)).weekend_premium.weekend_avg
            (analyze_prices (clean_data rawC2.flights)).weekend_premium.weekday_avg)
          (analyze_prices (clean_data rawC2.flights)).weekend_premium.weekday_avg)
        (some 100) :=
  C7_premium_presence (clean_data rawC2.flights) (by with_unfolding_all decide)

/-! ## C9 -/

/-- The route field the claim specifies: uppercased origin, `"-"`, uppercased
destination, a missing side propagating to a missing route (pandas string
concatenation with NaN). -/
def routeSpec (o dst : Option String) : Option String :=
  match o.map upperStr, dst.map upperStr with
  | some a, some b => some (a ++ "-" ++ b)
  | _, _ => none

/-- C9.  Every record produced by cleaning — including those whose raw
origin or destination was missing — carries exactly the claimed route
field. -/
theorem C9_route_field (flights : List RawRecord) (raw : RawRecord)
    (c : CleanRec) (hmem : raw ∈ drop_duplicates flights)
    (hnorm : normalizeRec raw = some c) :
    c ∈ (clean_data flights).rows ∧
    c.route = routeSpec raw.origin raw.destination := by
  constructor
  · show c ∈ (drop_duplicates flights).filterMap normalizeRec
    exact List.mem_filterMap.mpr ⟨raw, hmem, hnorm⟩
  · unfold normalizeRec at hnorm
    split at hnorm
    · exact absurd hnorm (by simp)
    · split at hnorm
      · exact absurd hnorm (by simp)
      · split at hnorm
        · exact absurd hnorm (by simp)
        · cases hnorm
          rfl

/-- Fixture: a record with a missing destination. -/
def recNoDest : RawRecord :=
  { price := some (.num 99), origin := some "syd", date := some "2024-01-03" }

/-- The cleaned row of the C9 fixture. -/
def cNoDest : CleanRec := (normalizeRec recNoDest).get (by with_unfolding_all decide)

/-- C9, witness. -/
theorem C9_route_field_witness :
    cNoDest ∈ (clean_data [recNoDest]).rows ∧
    cNoDest.route = routeSpec recNoDest.origin recNoDest.destination :=
  C9_route_field [recNoDest] recNoDest cNoDest (by with_unfolding_all decide)
    (Option.some_get _).symm

/-! ## C3 -/

/-- Fixture: one record with an airline but no `direct` flag — the shape of
the repository's own `TestDataProcessor.sample_data`. -/
def rawAirlineNoDirect : RawData := { flights := [recSatAirline] }

/-- C3 (code bug).  With `airline` present on some record but `direct`
on none, `_analyze_routes` degrades gracefully (its rows omit
`direct_ratio`), but `_analyze_airlines` references the missing `direct`
column unconditionally in its aggregation dict and raises `KeyError`
(`none` here) instead of producing rankings — contradicting the spec's
"degrades gracefully, never raises" and the guarded pattern of
`_analyze_routes` itself. -/
theorem C3_missing_direct_keyerror :
    (clean_data rawAirlineNoDirect.flights).hasAirline = true ∧
    (clean_data rawAirlineNoDirect.flights).hasDirect = false ∧
    analyze_airlines (clean_data rawAirlineNoDirect.flights) = none ∧
    (analyze_routes (clean_data rawAirlineNoDirect.flights)).map
      (fun ra => ra.popular_routes.map (·.direct_ratio)) = some [none] := by
  refine ⟨?_, ?_, ?_, ?_⟩ <;> with_unfolding_all decide

